import Mathlib

/-!
Shallow embedding of the stock screener core (`stock_screener/core.py` and the
criteria filter of `stock_screener/data_provider.py`).

Conventions of the embedding:
* Python floats are modelled as rationals (`ℚ`); the `float('inf')` sentinel
  used for undefined ratios is modelled by the two-constructor type `MValue`.
* Python exceptions are modelled by `Except PyError`.
* The `datetime.utcnow()` timestamp stored in `ScreeningResult` is wall-clock
  input with no bearing on any logic and is omitted from the record.
* The `ScreeningStrategy` enum members are identified with their string
  values ("value_investing", ..., "contrarian"), which lets the screening
  entry point be applied to unregistered strategy kinds as well.
-/

namespace StockScreener

/-- A metric value: either a finite rational or the `float('inf')` sentinel
produced by the denominator guards of `MetricsCalculator`. -/
inductive MValue where
  | fin (q : ℚ)
  | inf
deriving DecidableEq

namespace MValue

/-- Comparison `v < c` for a metric value against a finite constant (`inf < c` is false). -/
def ltb : MValue → ℚ → Bool
  | fin q, c => q < c
  | inf, _ => false

/-- Comparison `v > c` for a metric value against a finite constant (`inf > c` is true). -/
def gtb : MValue → ℚ → Bool
  | fin q, c => c < q
  | inf, _ => true

/-- Comparison `v ≤ c` for a metric value against a finite constant (`inf ≤ c` is false). -/
def leb : MValue → ℚ → Bool
  | fin q, c => q ≤ c
  | inf, _ => false

/-- Comparison `v ≥ c` for a metric value against a finite constant (`inf ≥ c` is true). -/
def geb : MValue → ℚ → Bool
  | fin q, c => c ≤ q
  | inf, _ => true

/-- Division of a metric value by a positive rational, as Python float
division behaves there: `inf / c = inf` for `c > 0`. -/
def divPos : MValue → ℚ → MValue
  | fin q, c => fin (q / c)
  | inf, _ => inf

end MValue

/-- Embeds `StockData` dataclass of `core.py`: fundamental stock information.
`shares_outstanding` is declared `int` in the source; all other numeric
fields are floats, modelled as rationals. -/
structure StockData where
  symbol : String
  price : ℚ
  eps : ℚ
  revenue : ℚ
  net_income : ℚ
  total_assets : ℚ
  total_liabilities : ℚ
  cash : ℚ
  debt : ℚ
  shares_outstanding : ℤ
  market_cap : ℚ
  dividend_per_share : ℚ
  book_value_per_share : ℚ
  revenue_growth : ℚ
  earnings_growth : ℚ
  dividend_yield : ℚ
  pe_ratio : Option ℚ := none
  pb_ratio : Option ℚ := none
  peg_ratio : Option ℚ := none
  roe : Option ℚ := none
  roa : Option ℚ := none
  debt_to_equity : Option ℚ := none
  current_ratio : Option ℚ := none
  quick_ratio : Option ℚ := none
  debt_to_assets : Option ℚ := none
  interest_coverage : Option ℚ := none
deriving DecidableEq

/-- The metrics dictionary built by `MetricsCalculator.calculate_all_metrics`,
as a record: its key set is fixed (the 25 keys inserted by the method).
Fields whose computation can produce the `+inf` sentinel are `MValue`;
the others are plain rationals, exactly per the guards in the source. -/
structure Metrics where
  pe_ratio : MValue
  pb_ratio : MValue
  peg_ratio : MValue
  price_to_sales : MValue
  roe : ℚ
  roa : ℚ
  net_margin : ℚ
  gross_margin : ℚ
  operating_margin : ℚ
  roic : ℚ
  asset_turnover : ℚ
  equity_multiplier : ℚ
  current_ratio : MValue
  quick_ratio : MValue
  cash_ratio : MValue
  debt_to_equity : MValue
  debt_to_assets : ℚ
  equity_ratio : ℚ
  interest_coverage : MValue
  revenue_growth : ℚ
  earnings_growth : ℚ
  dividend_yield : ℚ
  eps : ℚ
  book_value_per_share : ℚ
  dividend_per_share : ℚ
deriving DecidableEq

/-- Embeds `MetricsCalculator._calculate_pe_ratio`. -/
def _calculate_pe_ratio (stock : StockData) : MValue :=
  if stock.eps ≤ 0 then .inf else .fin (stock.price / stock.eps)

/-- Embeds `MetricsCalculator._calculate_pb_ratio`. -/
def _calculate_pb_ratio (stock : StockData) : MValue :=
  if stock.book_value_per_share ≤ 0 then .inf
  else .fin (stock.price / stock.book_value_per_share)

/-- Embeds `MetricsCalculator._calculate_peg_ratio`. -/
def _calculate_peg_ratio (stock : StockData) : MValue :=
  let pe_ratio : MValue :=
    if stock.eps > 0 then .fin (stock.price / stock.eps) else .inf
  if stock.earnings_growth ≤ 0 then .inf
  else pe_ratio.divPos stock.earnings_growth

/-- Embeds `MetricsCalculator._calculate_price_to_sales`. -/
def _calculate_price_to_sales (stock : StockData) : MValue :=
  if stock.revenue ≤ 0 then .inf else .fin (stock.market_cap / stock.revenue)

/-- Embeds `MetricsCalculator._calculate_roe`. -/
def _calculate_roe (stock : StockData) : ℚ :=
  let equity := stock.total_assets - stock.total_liabilities
  if equity ≤ 0 then 0 else (stock.net_income / equity) * 100

/-- Embeds `MetricsCalculator._calculate_roa`. -/
def _calculate_roa (stock : StockData) : ℚ :=
  if stock.total_assets ≤ 0 then 0 else (stock.net_income / stock.total_assets) * 100

/-- Embeds `MetricsCalculator._calculate_net_margin`. -/
def _calculate_net_margin (stock : StockData) : ℚ :=
  if stock.revenue ≤ 0 then 0 else (stock.net_income / stock.revenue) * 100

/-- Embeds `MetricsCalculator._calculate_gross_margin` (same approximation as net margin). -/
def _calculate_gross_margin (stock : StockData) : ℚ :=
  if stock.revenue ≤ 0 then 0 else (stock.net_income / stock.revenue) * 100

/-- Embeds `MetricsCalculator._calculate_operating_margin` (same approximation). -/
def _calculate_operating_margin (stock : StockData) : ℚ :=
  if stock.revenue ≤ 0 then 0 else (stock.net_income / stock.revenue) * 100

/-- Embeds `MetricsCalculator._calculate_roic`. -/
def _calculate_roic (stock : StockData) : ℚ :=
  let invested_capital := stock.total_assets -
    (stock.total_assets - stock.total_liabilities - stock.cash)
  if invested_capital ≤ 0 then 0 else (stock.net_income / invested_capital) * 100

/-- Embeds `MetricsCalculator._calculate_asset_turnover`. -/
def _calculate_asset_turnover (stock : StockData) : ℚ :=
  if stock.total_assets ≤ 0 then 0 else stock.revenue / stock.total_assets

/-- Embeds `MetricsCalculator._calculate_equity_multiplier`. -/
def _calculate_equity_multiplier (stock : StockData) : ℚ :=
  let equity := stock.total_assets - stock.total_liabilities
  if equity ≤ 0 then 0 else stock.total_assets / equity

/-- Embeds `MetricsCalculator._calculate_current_ratio` (simplified: cash / liabilities). -/
def _calculate_current_ratio (stock : StockData) : MValue :=
  if stock.total_liabilities ≤ 0 then .inf
  else .fin (stock.cash / stock.total_liabilities)

/-- Embeds `MetricsCalculator._calculate_quick_ratio` (same simplification). -/
def _calculate_quick_ratio (stock : StockData) : MValue :=
  if stock.total_liabilities ≤ 0 then .inf
  else .fin (stock.cash / stock.total_liabilities)

/-- Embeds `MetricsCalculator._calculate_cash_ratio`. -/
def _calculate_cash_ratio (stock : StockData) : MValue :=
  if stock.total_liabilities ≤ 0 then .inf
  else .fin (stock.cash / stock.total_liabilities)

/-- Embeds `MetricsCalculator._calculate_debt_to_equity`. -/
def _calculate_debt_to_equity (stock : StockData) : MValue :=
  let equity := stock.total_assets - stock.total_liabilities
  if equity ≤ 0 then .inf else .fin (stock.debt / equity)

/-- Embeds `MetricsCalculator._calculate_debt_to_assets`. -/
def _calculate_debt_to_assets (stock : StockData) : ℚ :=
  if stock.total_assets ≤ 0 then 0 else stock.debt / stock.total_assets

/-- Embeds `MetricsCalculator._calculate_equity_ratio`. -/
def _calculate_equity_ratio (stock : StockData) : ℚ :=
  if stock.total_assets ≤ 0 then 0
  else
    let equity := stock.total_assets - stock.total_liabilities
    (equity / stock.total_assets) * 100

/-- Embeds `MetricsCalculator._calculate_interest_coverage`: interest expense is
assumed to be 5% of debt; the guard is `debt <= 0`. -/
def _calculate_interest_coverage (stock : StockData) : MValue :=
  if stock.debt ≤ 0 then .inf
  else
    let interest_expense := stock.debt * (5 / 100 : ℚ)
    if interest_expense ≤ 0 then .inf
    else .fin (stock.net_income / interest_expense)

/-- Embeds `MetricsCalculator.calculate_all_metrics`. -/
def calculate_all_metrics (stock : StockData) : Metrics where
  pe_ratio := _calculate_pe_ratio stock
  pb_ratio := _calculate_pb_ratio stock
  peg_ratio := _calculate_peg_ratio stock
  price_to_sales := _calculate_price_to_sales stock
  roe := _calculate_roe stock
  roa := _calculate_roa stock
  net_margin := _calculate_net_margin stock
  gross_margin := _calculate_gross_margin stock
  operating_margin := _calculate_operating_margin stock
  roic := _calculate_roic stock
  asset_turnover := _calculate_asset_turnover stock
  equity_multiplier := _calculate_equity_multiplier stock
  current_ratio := _calculate_current_ratio stock
  quick_ratio := _calculate_quick_ratio stock
  cash_ratio := _calculate_cash_ratio stock
  debt_to_equity := _calculate_debt_to_equity stock
  debt_to_assets := _calculate_debt_to_assets stock
  equity_ratio := _calculate_equity_ratio stock
  interest_coverage := _calculate_interest_coverage stock
  revenue_growth := stock.revenue_growth
  earnings_growth := stock.earnings_growth
  dividend_yield := stock.dividend_yield
  eps := stock.eps
  book_value_per_share := stock.book_value_per_share
  dividend_per_share := stock.dividend_per_share

/-- Dictionary access `metrics[name]` / membership `name in metrics` for the
metrics dictionary: `some` exactly on the 25 keys inserted by
`calculate_all_metrics`, finite values wrapped into `MValue`. -/
def Metrics.get? (m : Metrics) : String → Option MValue
  | "pe_ratio" => some m.pe_ratio
  | "pb_ratio" => some m.pb_ratio
  | "peg_ratio" => some m.peg_ratio
  | "price_to_sales" => some m.price_to_sales
  | "roe" => some (.fin m.roe)
  | "roa" => some (.fin m.roa)
  | "net_margin" => some (.fin m.net_margin)
  | "gross_margin" => some (.fin m.gross_margin)
  | "operating_margin" => some (.fin m.operating_margin)
  | "roic" => some (.fin m.roic)
  | "asset_turnover" => some (.fin m.asset_turnover)
  | "equity_multiplier" => some (.fin m.equity_multiplier)
  | "current_ratio" => some m.current_ratio
  | "quick_ratio" => some m.quick_ratio
  | "cash_ratio" => some m.cash_ratio
  | "debt_to_equity" => some m.debt_to_equity
  | "debt_to_assets" => some (.fin m.debt_to_assets)
  | "equity_ratio" => some (.fin m.equity_ratio)
  | "interest_coverage" => some m.interest_coverage
  | "revenue_growth" => some (.fin m.revenue_growth)
  | "earnings_growth" => some (.fin m.earnings_growth)
  | "dividend_yield" => some (.fin m.dividend_yield)
  | "eps" => some (.fin m.eps)
  | "book_value_per_share" => some (.fin m.book_value_per_share)
  | "dividend_per_share" => some (.fin m.dividend_per_share)
  | _ => none

/-! ### StockAnalyzer: signals -/

/-- Valuation signal block of `StockAnalyzer._generate_signals` (P/E part). -/
def pe_signals (pe : MValue) : List String :=
  if pe.ltb 15 then ["UNDERVALUED_PE"]
  else if pe.gtb 30 then ["OVERVALUED_PE"]
  else []

/-- Valuation signal block of `_generate_signals` (P/B part). -/
def pb_signals (pb : MValue) : List String :=
  if pb.ltb 1 then ["UNDERVALUED_BOOK"]
  else if pb.gtb 3 then ["OVERVALUED_BOOK"]
  else []

/-- Profitability signal block of `_generate_signals`. -/
def profitability_signals (m : Metrics) : List String :=
  (if m.roe > 15 then ["HIGH_ROE"] else [])
  ++ (if m.roa > 10 then ["HIGH_ROA"] else [])
  ++ (if m.net_margin > 20 then ["HIGH_MARGIN"] else [])

/-- Growth signal block of `_generate_signals`. -/
def growth_signals (stock : StockData) : List String :=
  (if stock.revenue_growth > 20 then ["HIGH_REVENUE_GROWTH"] else [])
  ++ (if stock.earnings_growth > 20 then ["HIGH_EARNINGS_GROWTH"] else [])

/-- Dividend signal block of `_generate_signals`. -/
def dividend_signals (stock : StockData) : List String :=
  if stock.dividend_yield > 3 then ["HIGH_DIVIDEND_YIELD"]
  else if stock.dividend_yield > 0 then ["PAYS_DIVIDEND"]
  else []

/-- Liquidity signal block of `_generate_signals`. -/
def liquidity_signals (current_ratio : MValue) : List String :=
  if current_ratio.gtb 2 then ["STRONG_LIQUIDITY"]
  else if current_ratio.ltb 1 then ["WEAK_LIQUIDITY"]
  else []

/-- Debt signal block of `_generate_signals`. -/
def debt_signals (debt_to_equity : MValue) : List String :=
  if debt_to_equity.ltb 0.5 then ["LOW_DEBT"]
  else if debt_to_equity.gtb 2 then ["HIGH_DEBT"]
  else []

/-- Embeds `StockAnalyzer._generate_signals`: the in-order concatenation of the
signal blocks, exactly as the appends execute in the source. -/
def _generate_signals (stock : StockData) (metrics : Metrics) : List String :=
  pe_signals metrics.pe_ratio
  ++ pb_signals metrics.pb_ratio
  ++ profitability_signals metrics
  ++ growth_signals stock
  ++ dividend_signals stock
  ++ liquidity_signals metrics.current_ratio
  ++ debt_signals metrics.debt_to_equity

/-! ### StockAnalyzer: scores -/

/-- Embeds `StockAnalyzer._calculate_risk_score` (0-100, higher = more risky). -/
def _calculate_risk_score (stock : StockData) (metrics : Metrics) : ℚ :=
  let risk_score : ℚ :=
    (if metrics.current_ratio.ltb 1 then 25
     else if metrics.current_ratio.ltb 1.5 then 10 else 0)
    + (if metrics.debt_to_equity.gtb 2 then 25
       else if metrics.debt_to_equity.gtb 1 then 10 else 0)
    + (if metrics.roe < 5 then 20
       else if metrics.roe < 10 then 10 else 0)
    + (if stock.revenue_growth < -10 then 15
       else if stock.revenue_growth < 0 then 5 else 0)
  min 100 (max 0 risk_score)

/-- Embeds `StockAnalyzer._assess_fundamental_strength`. -/
def _assess_fundamental_strength (stock : StockData) (metrics : Metrics) : String :=
  let strength_score : ℚ :=
    (if metrics.roe > 15 then 25
     else if metrics.roe > 10 then 15
     else if metrics.roe > 5 then 5 else 0)
    + (if metrics.debt_to_equity.ltb 0.5 then 25
       else if metrics.debt_to_equity.ltb 1 then 15
       else if metrics.debt_to_equity.ltb 2 then 5 else 0)
    + (if metrics.current_ratio.gtb 1.5 then 25
       else if metrics.current_ratio.gtb 1 then 15 else 0)
    + (if stock.revenue_growth > 10 then 25
       else if stock.revenue_growth > 5 then 15
       else if stock.revenue_growth > 0 then 5 else 0)
  if strength_score ≥ 80 then "VERY_STRONG"
  else if strength_score ≥ 60 then "STRONG"
  else if strength_score ≥ 40 then "MODERATE"
  else if strength_score ≥ 20 then "WEAK"
  else "VERY_WEAK"

/-- P/E band of `StockAnalyzer._calculate_valuation_score`. -/
def valuation_pe_band (pe : MValue) : ℚ :=
  if pe.ltb 10 then 20
  else if pe.ltb 15 then 15
  else if pe.ltb 20 then 10
  else if pe.ltb 30 then 5
  else -20

/-- P/B band of `_calculate_valuation_score`. -/
def valuation_pb_band (pb : MValue) : ℚ :=
  if pb.ltb 1 then 20
  else if pb.ltb 1.5 then 10
  else if pb.ltb 2.5 then 5
  else -10

/-- P/S band of `_calculate_valuation_score`. -/
def valuation_ps_band (ps : MValue) : ℚ :=
  if ps.ltb 1 then 10
  else if ps.ltb 2 then 5
  else 0

/-- Embeds `StockAnalyzer._calculate_valuation_score` (starts at neutral 50, clamped). -/
def _calculate_valuation_score (metrics : Metrics) : ℚ :=
  let score : ℚ := 50 + valuation_pe_band metrics.pe_ratio
    + valuation_pb_band metrics.pb_ratio + valuation_ps_band metrics.price_to_sales
  min 100 (max 0 score)

/-- Current-ratio band of `StockAnalyzer._calculate_quality_score`. -/
def quality_cr_band (current_ratio : MValue) : ℚ :=
  if current_ratio.gtb 2 then 10
  else if current_ratio.ltb 1 then -20
  else 0

/-- Debt band of `_calculate_quality_score`. -/
def quality_debt_band (debt_to_equity : MValue) : ℚ :=
  if debt_to_equity.ltb 0.5 then 20
  else if debt_to_equity.ltb 1 then 10
  else if debt_to_equity.gtb 2 then -15
  else 0

/-- Embeds `StockAnalyzer._calculate_quality_score` (starts at 50, clamped). -/
def _calculate_quality_score (metrics : Metrics) : ℚ :=
  let score : ℚ := 50
    + (if metrics.roe > 20 then 20
       else if metrics.roe > 15 then 15
       else if metrics.roe > 10 then 10 else 0)
    + (if metrics.roa > 10 then 15
       else if metrics.roa > 5 then 10 else 0)
    + (if metrics.net_margin > 20 then 15
       else if metrics.net_margin > 10 then 10 else 0)
    + quality_debt_band metrics.debt_to_equity
    + quality_cr_band metrics.current_ratio
  min 100 (max 0 score)

/-- Embeds `StockAnalyzer._calculate_growth_score` (starts at 50, clamped). -/
def _calculate_growth_score (stock : StockData) (metrics : Metrics) : ℚ :=
  let score : ℚ := 50
    + (if stock.revenue_growth > 30 then 25
       else if stock.revenue_growth > 20 then 20
       else if stock.revenue_growth > 10 then 15
       else if stock.revenue_growth > 5 then 10
       else if stock.revenue_growth < 0 then -25 else 0)
    + (if stock.earnings_growth > 30 then 25
       else if stock.earnings_growth > 20 then 20
       else if stock.earnings_growth > 10 then 15
       else if stock.earnings_growth > 5 then 10
       else if stock.earnings_growth < 0 then -25 else 0)
    + (if metrics.peg_ratio.ltb 1 ∧ stock.earnings_growth > 0 then 20
       else if metrics.peg_ratio.ltb 2 ∧ stock.earnings_growth > 0 then 10 else 0)
  min 100 (max 0 score)

/-- Embeds `StockAnalyzer._calculate_momentum_score` (growth proxy, clamped). -/
def _calculate_momentum_score (stock : StockData) : ℚ :=
  let score : ℚ := 50
    + (if stock.revenue_growth > 15 then 25 else 0)
    + (if stock.earnings_growth > 15 then 25 else 0)
  min 100 (max 0 score)

/-- The analysis dictionary returned by `StockAnalyzer.analyze`. -/
structure Analysis where
  symbol : String
  metrics : Metrics
  signals : List String
  risk_score : ℚ
  fundamental_strength : String
  valuation_score : ℚ
  quality_score : ℚ
  growth_score : ℚ
  momentum_score : ℚ
deriving DecidableEq

/-- Embeds `StockAnalyzer.analyze`. -/
def analyze (stock : StockData) : Analysis :=
  let metrics := calculate_all_metrics stock
  { symbol := stock.symbol
    metrics := metrics
    signals := _generate_signals stock metrics
    risk_score := _calculate_risk_score stock metrics
    fundamental_strength := _assess_fundamental_strength stock metrics
    valuation_score := _calculate_valuation_score metrics
    quality_score := _calculate_quality_score metrics
    growth_score := _calculate_growth_score stock metrics
    momentum_score := _calculate_momentum_score stock }

/-! ### ScreeningEngine -/

/-- Python exceptions that the screening paths can raise. -/
inductive PyError where
  | valueError (msg : String)
  | zeroDivisionError
  | typeError
deriving DecidableEq

/-- Embeds `ScreeningResult` dataclass. The `strategy` field holds the value string
of the `ScreeningStrategy` enum member; the `timestamp` field (wall clock,
`datetime.utcnow()`) is omitted from the embedding. -/
structure ScreeningResult where
  symbol : String
  score : ℚ
  strategy : String
  metrics : Metrics
  signals : List String
deriving DecidableEq

/-- The descending-by-score order used by `sorted(..., key=lambda x: x.score,
reverse=True)`. -/
def byScoreDesc (a b : ScreeningResult) : Prop := b.score ≤ a.score

instance : DecidableRel byScoreDesc :=
  fun a b => inferInstanceAs (Decidable (b.score ≤ a.score))

instance : IsTotal ScreeningResult byScoreDesc :=
  ⟨fun a b => le_total b.score a.score⟩

instance : IsTrans ScreeningResult byScoreDesc :=
  ⟨fun _ _ _ h1 h2 => le_trans h2 h1⟩

/-- P/E ladder of `ScreeningEngine._screen_value`. -/
def value_pe_band (pe : MValue) : ℚ × List String :=
  if pe.ltb 10 then (30, ["VERY_LOW_PE"])
  else if pe.ltb 15 then (20, ["LOW_PE"])
  else if pe.ltb 20 then (10, [])
  else (0, [])

/-- P/B ladder of `_screen_value`. -/
def value_pb_band (pb : MValue) : ℚ × List String :=
  if pb.ltb 1 then (25, ["LOW_PB"])
  else if pb.ltb 1.5 then (15, [])
  else (0, [])

/-- P/S ladder of `_screen_value`. -/
def value_ps_band (ps : MValue) : ℚ × List String :=
  if ps.ltb 1 then (15, ["LOW_PS"])
  else if ps.ltb 2 then (10, [])
  else (0, [])

/-- Embeds `ScreeningEngine._screen_value`. -/
def _screen_value (stock : StockData) (analysis : Analysis) : ℚ × List String :=
  let b1 := value_pe_band analysis.metrics.pe_ratio
  let b2 := value_pb_band analysis.metrics.pb_ratio
  let b3 := value_ps_band analysis.metrics.price_to_sales
  let b4 : ℚ × List String :=
    if analysis.metrics.roe > 10 then (20, ["DECENT_ROE"]) else (0, [])
  let b5 : ℚ := if stock.earnings_growth ≥ 0 then 10 else 0
  (min 100 (b1.1 + b2.1 + b3.1 + b4.1 + b5), b1.2 ++ b2.2 ++ b3.2 ++ b4.2)

/-- Revenue-growth ladder of `ScreeningEngine._screen_growth`. -/
def growth_revenue_band (revenue_growth : ℚ) : ℚ × List String :=
  if revenue_growth > 30 then (30, ["VERY_HIGH_REVENUE_GROWTH"])
  else if revenue_growth > 20 then (25, ["HIGH_REVENUE_GROWTH"])
  else if revenue_growth > 10 then (15, [])
  else (0, [])

/-- Earnings-growth ladder of `_screen_growth`. -/
def growth_earnings_band (earnings_growth : ℚ) : ℚ × List String :=
  if earnings_growth > 30 then (30, ["VERY_HIGH_EARNINGS_GROWTH"])
  else if earnings_growth > 20 then (25, ["HIGH_EARNINGS_GROWTH"])
  else if earnings_growth > 10 then (15, [])
  else (0, [])

/-- PEG ladder of `_screen_growth`. -/
def growth_peg_band (peg : MValue) : ℚ × List String :=
  if peg.ltb 1 then (20, ["GOOD_PEG"])
  else if peg.ltb 2 then (10, [])
  else (0, [])

/-- Embeds `ScreeningEngine._screen_growth`. -/
def _screen_growth (stock : StockData) (analysis : Analysis) : ℚ × List String :=
  let b1 := growth_revenue_band stock.revenue_growth
  let b2 := growth_earnings_band stock.earnings_growth
  let b3 := growth_peg_band analysis.metrics.peg_ratio
  let b4 : ℚ := if analysis.metrics.roe > 15 then 15 else 0
  (min 100 (b1.1 + b2.1 + b3.1 + b4), b1.2 ++ b2.2 ++ b3.2)

/-- Yield ladder of `ScreeningEngine._screen_dividend`. -/
def dividend_yield_band (dividend_yield dps : ℚ) : ℚ × List String :=
  if dividend_yield ≥ 5 then (30, ["VERY_HIGH_YIELD"])
  else if dividend_yield ≥ 3 then (25, ["HIGH_YIELD"])
  else if dividend_yield ≥ 2 then (15, ["MODERATE_YIELD"])
  else if dps > 0 then (5, ["PAYS_DIVIDEND"])
  else (0, [])

/-- Embeds `ScreeningEngine._screen_dividend`. -/
def _screen_dividend (stock : StockData) (analysis : Analysis) : ℚ × List String :=
  let b1 := dividend_yield_band stock.dividend_yield stock.dividend_per_share
  let b2 : ℚ × List String :=
    if analysis.metrics.roe > 10 then (20, ["SUSTAINABLE_DIVIDEND"]) else (0, [])
  let b3 : ℚ :=
    if analysis.metrics.debt_to_equity.ltb 1 then 15
    else if analysis.metrics.debt_to_equity.ltb 2 then 10
    else 0
  let b4 : ℚ := if stock.earnings_growth ≥ -5 then 10 else 0
  (min 100 (b1.1 + b2.1 + b3 + b4), b1.2 ++ b2.2)

/-- Earnings-momentum ladder of `ScreeningEngine._screen_momentum`. -/
def momentum_earnings_band (earnings_growth : ℚ) : ℚ × List String :=
  if earnings_growth > 25 then (35, ["STRONG_MOMENTUM"])
  else if earnings_growth > 15 then (25, ["MODERATE_MOMENTUM"])
  else if earnings_growth > 5 then (15, [])
  else (0, [])

/-- Embeds `ScreeningEngine._screen_momentum`. -/
def _screen_momentum (stock : StockData) (analysis : Analysis) : ℚ × List String :=
  let b1 := momentum_earnings_band stock.earnings_growth
  let b2 : ℚ := if stock.revenue_growth > 20 then 20 else 0
  let b3 : ℚ := if analysis.momentum_score > 70 then 15 else 0
  (min 100 (b1.1 + b2 + b3), b1.2)

/-- Quality-score ladder of `ScreeningEngine._screen_quality`. -/
def quality_qs_band (quality_score : ℚ) : ℚ × List String :=
  if quality_score > 80 then (30, ["HIGH_QUALITY"])
  else if quality_score > 70 then (20, ["GOOD_QUALITY"])
  else (0, [])

/-- ROE ladder of `_screen_quality`. -/
def quality_roe_band (roe : ℚ) : ℚ × List String :=
  if roe > 20 then (20, ["EXCELLENT_ROE"])
  else if roe > 15 then (15, [])
  else (0, [])

/-- Debt ladder of `_screen_quality`. -/
def quality_d2e_band (debt_to_equity : MValue) : ℚ × List String :=
  if debt_to_equity.ltb 0.5 then (20, ["VERY_LOW_DEBT"])
  else if debt_to_equity.ltb 1 then (10, [])
  else (0, [])

/-- Embeds `ScreeningEngine._screen_quality`. -/
def _screen_quality (stock : StockData) (analysis : Analysis) : ℚ × List String :=
  let b1 := quality_qs_band analysis.quality_score
  let b2 := quality_roe_band analysis.metrics.roe
  let b3 : ℚ := if analysis.metrics.roa > 10 then 15 else 0
  let b4 := quality_d2e_band analysis.metrics.debt_to_equity
  let b5 : ℚ × List String :=
    if analysis.metrics.current_ratio.gtb 2 then (10, ["STRONG_LIQUIDITY"]) else (0, [])
  let b6 : ℚ := if analysis.metrics.net_margin > 15 then 10 else 0
  (min 100 (b1.1 + b2.1 + b3 + b4.1 + b5.1 + b6), b1.2 ++ b2.2 ++ b4.2 ++ b5.2)

/-- P/E ladder of `ScreeningEngine._screen_contrarian`. -/
def contrarian_pe_band (pe : MValue) : ℚ × List String :=
  if pe.ltb 8 then (30, ["EXTREMELY_UNDERVALUED"])
  else if pe.ltb 12 then (20, ["SIGNIFICANTLY_UNDERVALUED"])
  else (0, [])

/-- Embeds `ScreeningEngine._screen_contrarian`. -/
def _screen_contrarian (stock : StockData) (analysis : Analysis) : ℚ × List String :=
  let b1 := contrarian_pe_band analysis.metrics.pe_ratio
  let b2 : ℚ := if analysis.metrics.pb_ratio.ltb 0.8 then 20 else 0
  let b3 : ℚ × List String :=
    if analysis.valuation_score > 70 then (25, ["MARKET_UNDERVALUATION"]) else (0, [])
  let b4 : ℚ × List String :=
    if analysis.metrics.roe > 10 ∧ stock.revenue_growth ≥ 0
    then (20, ["HIDDEN_VALUE"]) else (0, [])
  (min 100 (b1.1 + b2 + b3.1 + b4.1), b1.2 ++ b3.2 ++ b4.2)

/-- The `self.strategies` dictionary of `ScreeningEngine.__init__`, keyed by
the value strings of the `ScreeningStrategy` enum members. -/
def strategiesTable : List (String × (StockData → Analysis → ℚ × List String)) :=
  [("value_investing", _screen_value),
   ("growth_investing", _screen_growth),
   ("dividend_investing", _screen_dividend),
   ("momentum_investing", _screen_momentum),
   ("quality_investing", _screen_quality),
   ("contrarian", _screen_contrarian)]

/-- The per-stock body of the loop in `ScreeningEngine.screen`: analyze,
score, and build the `ScreeningResult`. -/
def resultOf (strategy : String) (f : StockData → Analysis → ℚ × List String)
    (stock : StockData) : ScreeningResult :=
  let analysis := analyze stock
  let scored := f stock analysis
  { symbol := stock.symbol
    score := scored.1
    strategy := strategy
    metrics := analysis.metrics
    signals := scored.2 }

/-- The accumulation loop of `ScreeningEngine.screen`: keep a stock's result
exactly when its score reaches the threshold. -/
def screenLoop (strategy : String) (f : StockData → Analysis → ℚ × List String)
    (threshold : ℚ) : List StockData → List ScreeningResult
  | [] => []
  | stock :: rest =>
    let r := resultOf strategy f stock
    if threshold ≤ r.score then r :: screenLoop strategy f threshold rest
    else screenLoop strategy f threshold rest

/-- Embeds `ScreeningEngine.screen`: dictionary lookup of the strategy (raising
`ValueError` for an unregistered kind), threshold filtering, and the final
descending sort by score. -/
def screen (stocks : List StockData) (strategy : String) (threshold : ℚ) :
    Except PyError (List ScreeningResult) :=
  match strategiesTable.lookup strategy with
  | none => .error (.valueError ("Unknown strategy: " ++ strategy))
  | some f => .ok (List.insertionSort byScoreDesc (screenLoop strategy f threshold stocks))

/-! ### StrategyBuilder: custom rule composition -/

/-- A custom-strategy rule: a predicate over (stock, analysis). A Python
rule that raises during evaluation is modelled by the `Except.error` case. -/
def Rule := StockData → Analysis → Except String Bool

/-- A registered custom strategy (the `created_at` timestamp is omitted). -/
structure CustomStrategy where
  name : String
  rules : List Rule

/-- The rule-evaluation loop of `StrategyBuilder.screen_with_custom_strategy`:
`enumerate(strategy['rules'])` starting at index `i`; a rule returning true
increments `match_count` and contributes a `RULE_<i>` signal; a rule
returning false or raising (the raise is logged and swallowed) contributes
nothing. -/
def applyRules (stock : StockData) (analysis : Analysis) :
    List Rule → ℕ → ℕ × List String
  | [], _ => (0, [])
  | rule :: rest, i =>
    let tail := applyRules stock analysis rest (i + 1)
    match rule stock analysis with
    | .ok true => (tail.1 + 1, ("RULE_" ++ toString i) :: tail.2)
    | _ => tail

/-- The per-stock loop of `screen_with_custom_strategy`: evaluate the rules,
then `score = (match_count / len(rules)) * 100` — a division that raises
`ZeroDivisionError` when the rule list is empty — and keep the stock when
the score reaches the threshold. The result's `strategy` field is hardcoded
to `ScreeningStrategy.VALUE_INVESTING` in the source. -/
def customLoop (strategy : CustomStrategy) (threshold : ℚ) :
    List StockData → Except PyError (List ScreeningResult)
  | [] => .ok []
  | stock :: rest => do
    let analysis := analyze stock
    let matched := applyRules stock analysis strategy.rules 0
    if strategy.rules.length = 0 then .error .zeroDivisionError
    else do
      let score : ℚ := ((matched.1 : ℚ) / (strategy.rules.length : ℚ)) * 100
      let tail ← customLoop strategy threshold rest
      if threshold ≤ score then
        .ok ({ symbol := stock.symbol
               score := score
               strategy := "value_investing"
               metrics := analysis.metrics
               signals := matched.2 } :: tail)
      else .ok tail

/-- Embeds `StrategyBuilder.screen_with_custom_strategy`: registry lookup (raising
`ValueError` for an unknown id), the per-stock scoring loop, and the final
descending sort by score. -/
def screen_with_custom_strategy (registry : List (String × CustomStrategy))
    (stocks : List StockData) (strategy_id : String) (threshold : ℚ) :
    Except PyError (List ScreeningResult) :=
  match registry.lookup strategy_id with
  | none => .error (.valueError ("Unknown strategy ID: " ++ strategy_id))
  | some strategy => do
    let results ← customLoop strategy threshold stocks
    .ok (List.insertionSort byScoreDesc results)

/-! ### CriteriaFilter (`data_provider.StockScreener._apply_criteria`) -/

/-- A `{'min': ..., 'max': ...}` bounds dictionary, both keys optional. -/
structure Bounds where
  min : Option ℚ
  max : Option ℚ
deriving DecidableEq

/-- A Python value as seen by the criteria bounds check: a numeric value
(possibly the infinity sentinel), a string (the `symbol` attribute), or
`None` (an unset optional ratio field). -/
inductive PyValue where
  | num (v : MValue)
  | str (s : String)
  | pynone
deriving DecidableEq

/-- The `metric_map` dictionary of `_apply_criteria` (identity on its keys). -/
def metric_map : List (String × String) :=
  [("pe_ratio", "pe_ratio"),
   ("pb_ratio", "pb_ratio"),
   ("roe", "roe"),
   ("roa", "roa"),
   ("debt_to_equity", "debt_to_equity"),
   ("current_ratio", "current_ratio"),
   ("dividend_yield", "dividend_yield"),
   ("revenue_growth", "revenue_growth"),
   ("earnings_growth", "earnings_growth"),
   ("payout_ratio", "payout_ratio"),
   ("interest_coverage", "interest_coverage"),
   ("debt_to_assets", "debt_to_assets"),
   ("free_cash_flow", "free_cash_flow"),
   ("years_of_dividends", "years_of_dividends")]

/-- Embeds `hasattr(stock, name)` / `getattr(stock, name)` over the `StockData`
dataclass fields: `none` when the attribute does not exist. Unset optional
ratio fields hold Python `None`. -/
def StockData.getattr? (stock : StockData) : String → Option PyValue
  | "symbol" => some (.str stock.symbol)
  | "price" => some (.num (.fin stock.price))
  | "eps" => some (.num (.fin stock.eps))
  | "revenue" => some (.num (.fin stock.revenue))
  | "net_income" => some (.num (.fin stock.net_income))
  | "total_assets" => some (.num (.fin stock.total_assets))
  | "total_liabilities" => some (.num (.fin stock.total_liabilities))
  | "cash" => some (.num (.fin stock.cash))
  | "debt" => some (.num (.fin stock.debt))
  | "shares_outstanding" => some (.num (.fin (stock.shares_outstanding : ℚ)))
  | "market_cap" => some (.num (.fin stock.market_cap))
  | "dividend_per_share" => some (.num (.fin stock.dividend_per_share))
  | "book_value_per_share" => some (.num (.fin stock.book_value_per_share))
  | "revenue_growth" => some (.num (.fin stock.revenue_growth))
  | "earnings_growth" => some (.num (.fin stock.earnings_growth))
  | "dividend_yield" => some (.num (.fin stock.dividend_yield))
  | "pe_ratio" => some (match stock.pe_ratio with | some q => .num (.fin q) | none => .pynone)
  | "pb_ratio" => some (match stock.pb_ratio with | some q => .num (.fin q) | none => .pynone)
  | "peg_ratio" => some (match stock.peg_ratio with | some q => .num (.fin q) | none => .pynone)
  | "roe" => some (match stock.roe with | some q => .num (.fin q) | none => .pynone)
  | "roa" => some (match stock.roa with | some q => .num (.fin q) | none => .pynone)
  | "debt_to_equity" =>
    some (match stock.debt_to_equity with | some q => .num (.fin q) | none => .pynone)
  | "current_ratio" =>
    some (match stock.current_ratio with | some q => .num (.fin q) | none => .pynone)
  | "quick_ratio" =>
    some (match stock.quick_ratio with | some q => .num (.fin q) | none => .pynone)
  | "debt_to_assets" =>
    some (match stock.debt_to_assets with | some q => .num (.fin q) | none => .pynone)
  | "interest_coverage" =>
    some (match stock.interest_coverage with | some q => .num (.fin q) | none => .pynone)
  | _ => none

/-- Value resolution of `_apply_criteria`: translate the criteria key through
`metric_map` (defaulting to itself), then check the metrics dictionary
first, then the stock attributes; `none` means "skip this criterion". -/
def resolveValue (stock : StockData) (metrics : Metrics) (metric : String) :
    Option PyValue :=
  let actual_metric := (metric_map.lookup metric).getD metric
  match metrics.get? actual_metric with
  | some v => some (.num v)
  | none => stock.getattr? actual_metric

/-- Comparison `value < bound` as Python evaluates it: comparing a non-number raises
`TypeError`. -/
def pyLt (value : PyValue) (bound : ℚ) : Except PyError Bool :=
  match value with
  | .num v => .ok (v.ltb bound)
  | _ => .error .typeError

/-- Comparison `value > bound` as Python evaluates it. -/
def pyGt (value : PyValue) (bound : ℚ) : Except PyError Bool :=
  match value with
  | .num v => .ok (v.gtb bound)
  | _ => .error .typeError

/-- The bounds check of `_apply_criteria`: fail on `value < min` or
`value > max`, each bound checked only when present. -/
def checkBounds (value : PyValue) (bounds : Bounds) : Except PyError Bool := do
  let failMin ← match bounds.min with
    | some m => pyLt value m
    | none => pure false
  if failMin then .ok false
  else
    let failMax ← match bounds.max with
      | some m => pyGt value m
      | none => pure false
    .ok (!failMax)

/-- One criterion of the inner loop of `_apply_criteria`: resolve the value
(an unresolvable name is skipped, i.e. passes), then check the bounds. -/
def criterionCheck (stock : StockData) (metrics : Metrics) (metric : String)
    (bounds : Bounds) : Except PyError Bool :=
  match resolveValue stock metrics metric with
  | none => .ok true
  | some value => checkBounds value bounds

/-- The inner loop of `_apply_criteria` over the criteria items, with the
`break` on the first failing criterion. -/
def passesCriteria (stock : StockData) (metrics : Metrics) :
    List (String × Bounds) → Except PyError Bool
  | [] => .ok true
  | (metric, bounds) :: rest => do
    let ok ← criterionCheck stock metrics metric bounds
    if ok then passesCriteria stock metrics rest else .ok false

/-- Embeds `StockScreener._apply_criteria` of `data_provider.py`: keep the stocks
whose per-stock analysis passes every criterion. -/
def _apply_criteria (stocks : List StockData) (criteria : List (String × Bounds)) :
    Except PyError (List StockData) :=
  match stocks with
  | [] => .ok []
  | stock :: rest => do
    let analysis := analyze stock
    let passes ← passesCriteria stock analysis.metrics criteria
    let tail ← _apply_criteria rest criteria
    .ok (if passes then stock :: tail else tail)

/-! ### Concrete sample records used by witnesses and counterexamples -/

/-- A sample record with `pe_ratio = 15` (price 15, eps 1). -/
def stockA : StockData where
  symbol := "AAA"
  price := 15
  eps := 1
  revenue := 100
  net_income := 10
  total_assets := 100
  total_liabilities := 50
  cash := 20
  debt := 10
  shares_outstanding := 1000
  market_cap := 150
  dividend_per_share := 0
  book_value_per_share := 10
  revenue_growth := 5
  earnings_growth := 5
  dividend_yield := 0

/-- A sample record with `pe_ratio = 25` (price 25, eps 1). -/
def stockB : StockData :=
  { stockA with symbol := "BBB", price := 25 }

/-- A sample record with zero liabilities and zero debt, so
`current_ratio` and `interest_coverage` are the infinity sentinel. -/
def stockC : StockData :=
  { stockA with symbol := "CCC", total_liabilities := 0, debt := 0 }

/-! ### Helper lemmas -/

/-- The clamp `min(100, max(0, x))` lands in `[0, 100]`. -/
lemma clamp_mem_Icc (x : ℚ) : 0 ≤ min 100 (max 0 x) ∧ min 100 (max 0 x) ≤ 100 :=
  ⟨le_min (by norm_num) (le_max_left 0 x), min_le_left _ _⟩

lemma pe_ratio_eq_inf {stock : StockData} (h : stock.eps ≤ 0) :
    (calculate_all_metrics stock).pe_ratio = .inf := by
  simp [calculate_all_metrics, _calculate_pe_ratio, if_pos h]

lemma pb_ratio_eq_inf {stock : StockData} (h : stock.book_value_per_share ≤ 0) :
    (calculate_all_metrics stock).pb_ratio = .inf := by
  simp [calculate_all_metrics, _calculate_pb_ratio, if_pos h]

lemma current_ratio_eq_inf {stock : StockData} (h : stock.total_liabilities ≤ 0) :
    (calculate_all_metrics stock).current_ratio = .inf := by
  simp [calculate_all_metrics, _calculate_current_ratio, if_pos h]

lemma interest_coverage_eq_inf {stock : StockData} (h : stock.debt ≤ 0) :
    (calculate_all_metrics stock).interest_coverage = .inf := by
  simp [calculate_all_metrics, _calculate_interest_coverage, if_pos h]

/-- Membership in the signal list, block by block. -/
lemma mem_signals_iff (s : String) (stock : StockData) (m : Metrics) :
    s ∈ _generate_signals stock m ↔
      s ∈ pe_signals m.pe_ratio ∨ s ∈ pb_signals m.pb_ratio ∨
      s ∈ profitability_signals m ∨ s ∈ growth_signals stock ∨
      s ∈ dividend_signals stock ∨ s ∈ liquidity_signals m.current_ratio ∨
      s ∈ debt_signals m.debt_to_equity := by
  simp [_generate_signals, List.mem_append, or_assoc]

lemma pe_signals_subset (pe : MValue) :
    ∀ s ∈ pe_signals pe, s = "UNDERVALUED_PE" ∨ s = "OVERVALUED_PE" := by
  intro s hs
  unfold pe_signals at hs
  split at hs <;> [skip; split at hs] <;> simp_all

lemma pb_signals_subset (pb : MValue) :
    ∀ s ∈ pb_signals pb, s = "UNDERVALUED_BOOK" ∨ s = "OVERVALUED_BOOK" := by
  intro s hs
  unfold pb_signals at hs
  split at hs <;> [skip; split at hs] <;> simp_all

lemma profitability_signals_subset (m : Metrics) :
    ∀ s ∈ profitability_signals m,
      s = "HIGH_ROE" ∨ s = "HIGH_ROA" ∨ s = "HIGH_MARGIN" := by
  intro s hs
  unfold profitability_signals at hs
  simp only [List.mem_append] at hs
  rcases hs with (hs | hs) | hs <;> split at hs <;> simp_all

lemma growth_signals_subset (stock : StockData) :
    ∀ s ∈ growth_signals stock,
      s = "HIGH_REVENUE_GROWTH" ∨ s = "HIGH_EARNINGS_GROWTH" := by
  intro s hs
  unfold growth_signals at hs
  simp only [List.mem_append] at hs
  rcases hs with hs | hs <;> split at hs <;> simp_all

lemma dividend_signals_subset (stock : StockData) :
    ∀ s ∈ dividend_signals stock,
      s = "HIGH_DIVIDEND_YIELD" ∨ s = "PAYS_DIVIDEND" := by
  intro s hs
  unfold dividend_signals at hs
  split at hs <;> [skip; split at hs] <;> simp_all

lemma liquidity_signals_subset (cr : MValue) :
    ∀ s ∈ liquidity_signals cr,
      s = "STRONG_LIQUIDITY" ∨ s = "WEAK_LIQUIDITY" := by
  intro s hs
  unfold liquidity_signals at hs
  split at hs <;> [skip; split at hs] <;> simp_all

lemma debt_signals_subset (d2e : MValue) :
    ∀ s ∈ debt_signals d2e, s = "LOW_DEBT" ∨ s = "HIGH_DEBT" := by
  intro s hs
  unfold debt_signals at hs
  split at hs <;> [skip; split at hs] <;> simp_all

lemma pe_signals_inf : pe_signals .inf = ["OVERVALUED_PE"] := rfl

lemma pb_signals_inf : pb_signals .inf = ["OVERVALUED_BOOK"] := rfl

lemma liquidity_signals_inf : liquidity_signals .inf = ["STRONG_LIQUIDITY"] := rfl

/-- With an infinite P/E, `UNDERVALUED_PE` is never emitted. -/
lemma undervalued_pe_not_mem {stock : StockData} {m : Metrics}
    (hpe : m.pe_ratio = .inf) : "UNDERVALUED_PE" ∉ _generate_signals stock m := by
  intro h
  rcases (mem_signals_iff _ _ _).1 h with h | h | h | h | h | h | h
  · rw [hpe, pe_signals_inf] at h
    exact absurd h (by decide)
  · exact absurd (pb_signals_subset _ _ h) (by decide)
  · exact absurd (profitability_signals_subset _ _ h) (by decide)
  · exact absurd (growth_signals_subset _ _ h) (by decide)
  · exact absurd (dividend_signals_subset _ _ h) (by decide)
  · exact absurd (liquidity_signals_subset _ _ h) (by decide)
  · exact absurd (debt_signals_subset _ _ h) (by decide)

/-- With an infinite P/B, `UNDERVALUED_BOOK` is never emitted. -/
lemma undervalued_book_not_mem {stock : StockData} {m : Metrics}
    (hpb : m.pb_ratio = .inf) : "UNDERVALUED_BOOK" ∉ _generate_signals stock m := by
  intro h
  rcases (mem_signals_iff _ _ _).1 h with h | h | h | h | h | h | h
  · exact absurd (pe_signals_subset _ _ h) (by decide)
  · rw [hpb, pb_signals_inf] at h
    exact absurd h (by decide)
  · exact absurd (profitability_signals_subset _ _ h) (by decide)
  · exact absurd (growth_signals_subset _ _ h) (by decide)
  · exact absurd (dividend_signals_subset _ _ h) (by decide)
  · exact absurd (liquidity_signals_subset _ _ h) (by decide)
  · exact absurd (debt_signals_subset _ _ h) (by decide)

/-- With an infinite current ratio, `WEAK_LIQUIDITY` is never emitted. -/
lemma weak_liquidity_not_mem {stock : StockData} {m : Metrics}
    (hcr : m.current_ratio = .inf) : "WEAK_LIQUIDITY" ∉ _generate_signals stock m := by
  intro h
  rcases (mem_signals_iff _ _ _).1 h with h | h | h | h | h | h | h
  · exact absurd (pe_signals_subset _ _ h) (by decide)
  · exact absurd (pb_signals_subset _ _ h) (by decide)
  · exact absurd (profitability_signals_subset _ _ h) (by decide)
  · exact absurd (growth_signals_subset _ _ h) (by decide)
  · exact absurd (dividend_signals_subset _ _ h) (by decide)
  · rw [hcr, liquidity_signals_inf] at h
    exact absurd h (by decide)
  · exact absurd (debt_signals_subset _ _ h) (by decide)

lemma overvalued_pe_mem {stock : StockData} {m : Metrics}
    (hpe : m.pe_ratio = .inf) : "OVERVALUED_PE" ∈ _generate_signals stock m := by
  rw [mem_signals_iff]
  exact Or.inl (by rw [hpe, pe_signals_inf]; exact List.mem_singleton.2 rfl)

lemma overvalued_book_mem {stock : StockData} {m : Metrics}
    (hpb : m.pb_ratio = .inf) : "OVERVALUED_BOOK" ∈ _generate_signals stock m := by
  rw [mem_signals_iff]
  exact Or.inr (Or.inl (by rw [hpb, pb_signals_inf]; exact List.mem_singleton.2 rfl))

lemma strong_liquidity_mem {stock : StockData} {m : Metrics}
    (hcr : m.current_ratio = .inf) : "STRONG_LIQUIDITY" ∈ _generate_signals stock m := by
  rw [mem_signals_iff]
  refine Or.inr (Or.inr (Or.inr (Or.inr (Or.inr (Or.inl ?_)))))
  rw [hcr, liquidity_signals_inf]
  exact List.mem_singleton.2 rfl

/-- A sample record with non-positive eps, book value, liabilities and debt,
so every infinity-guarded metric takes the sentinel value. -/
def stockE : StockData :=
  { stockA with symbol := "EEE", eps := 0, book_value_per_share := 0,
                total_liabilities := 0, debt := 0 }

/-! ### Claim theorems -/

/-- C1: for every `StockData` record, `StockAnalyzer.analyze` returns a
`risk_score` in `[0, 100]` and `valuation_score`, `quality_score`,
`growth_score`, `momentum_score` each in `[0, 100]`, for every combination
of input values (the clamps `min(100, max(0, score))` apply uniformly,
including when the underlying metrics are the infinity sentinel). -/
theorem analyze_scores_in_range (stock : StockData) :
    (0 ≤ (analyze stock).risk_score ∧ (analyze stock).risk_score ≤ 100) ∧
    (0 ≤ (analyze stock).valuation_score ∧ (analyze stock).valuation_score ≤ 100) ∧
    (0 ≤ (analyze stock).quality_score ∧ (analyze stock).quality_score ≤ 100) ∧
    (0 ≤ (analyze stock).growth_score ∧ (analyze stock).growth_score ≤ 100) ∧
    (0 ≤ (analyze stock).momentum_score ∧ (analyze stock).momentum_score ≤ 100) :=
  ⟨clamp_mem_Icc _, clamp_mem_Icc _, clamp_mem_Icc _, clamp_mem_Icc _, clamp_mem_Icc _⟩

/-- C6: for every record with `eps ≤ 0`, the computed `pe_ratio` is the
`+infinity` sentinel, and no `UNDERVALUED_PE` signal ever fires from such a
`pe_ratio` (the signal generator emits `OVERVALUED_PE` instead). -/
theorem pe_inf_of_nonpos_eps (stock : StockData) (h : stock.eps ≤ 0) :
    (calculate_all_metrics stock).pe_ratio = .inf ∧
    "UNDERVALUED_PE" ∉ _generate_signals stock (calculate_all_metrics stock) :=
  ⟨pe_ratio_eq_inf h, undervalued_pe_not_mem (pe_ratio_eq_inf h)⟩

/-- Witness for C6 at the concrete record `stockE` (eps = 0). -/
theorem pe_inf_of_nonpos_eps_witness :
    stockE.eps ≤ 0 ∧
    ((calculate_all_metrics stockE).pe_ratio = .inf ∧
      "UNDERVALUED_PE" ∉ _generate_signals stockE (calculate_all_metrics stockE)) :=
  ⟨by decide, pe_inf_of_nonpos_eps stockE (by decide)⟩

/-- C7: for every record with `debt ≤ 0` — including exactly `debt = 0` —
the computed `interest_coverage` metric is the `+infinity` sentinel (the
guard in the source is `debt <= 0`, not `debt < 0`). -/
theorem interest_coverage_inf_of_nonpos_debt (stock : StockData)
    (h : stock.debt ≤ 0) :
    (calculate_all_metrics stock).interest_coverage = .inf :=
  interest_coverage_eq_inf h

/-- Witness for C7 at the concrete record `stockC`, which has `debt = 0`
exactly. -/
theorem interest_coverage_inf_of_nonpos_debt_witness :
    stockC.debt = 0 ∧ stockC.debt ≤ 0 ∧
    (calculate_all_metrics stockC).interest_coverage = .inf :=
  ⟨by decide, by decide, interest_coverage_inf_of_nonpos_debt stockC (by decide)⟩

/-- C5 counterexample: the claim says every scoring band and signal rule
reading an infinite metric routes it through its explicit else branch to the
worst-case/lowest-score band, "in particular for current_ratio = +infinity".
At `stockC` (zero liabilities) `current_ratio` is the infinity sentinel, yet
it satisfies the first test `current_ratio > 2`, firing the favourable
`STRONG_LIQUIDITY` signal (not the `WEAK_LIQUIDITY` worst case) and adding
`+10` (the best band) in the quality score, not `-20`. -/
theorem infinity_routing_cex :
    (calculate_all_metrics stockC).current_ratio = .inf ∧
    "STRONG_LIQUIDITY" ∈ _generate_signals stockC (calculate_all_metrics stockC) ∧
    "WEAK_LIQUIDITY" ∉ _generate_signals stockC (calculate_all_metrics stockC) ∧
    quality_cr_band (calculate_all_metrics stockC).current_ratio = 10 ∧
    quality_cr_band (calculate_all_metrics stockC).current_ratio ≠ -20 := by
  have hcr : (calculate_all_metrics stockC).current_ratio = .inf :=
    current_ratio_eq_inf (by decide)
  refine ⟨hcr, strong_liquidity_mem hcr, weak_liquidity_not_mem hcr, ?_, ?_⟩
  · rw [hcr]; rfl
  · rw [hcr]; decide

/-- C5 (amended): an infinite metric is routed deterministically through the
explicit branches of every band that reads it; for `pe_ratio` and `pb_ratio`
(bands of the form `< c`) infinity falls into the else branch — the
worst-case band (`OVERVALUED_PE`/`OVERVALUED_BOOK`, score penalty) — but for
`current_ratio` infinity satisfies the first test `> 2` and lands in the
strongest band (`STRONG_LIQUIDITY`, quality `+10`), not the worst one;
`interest_coverage = +infinity` is produced by the `debt ≤ 0` guard and is
read by no core scoring band. -/
theorem infinity_band_routing (stock : StockData) :
    (stock.eps ≤ 0 →
      (calculate_all_metrics stock).pe_ratio = .inf ∧
      valuation_pe_band (calculate_all_metrics stock).pe_ratio = -20 ∧
      "OVERVALUED_PE" ∈ _generate_signals stock (calculate_all_metrics stock) ∧
      "UNDERVALUED_PE" ∉ _generate_signals stock (calculate_all_metrics stock)) ∧
    (stock.book_value_per_share ≤ 0 →
      (calculate_all_metrics stock).pb_ratio = .inf ∧
      valuation_pb_band (calculate_all_metrics stock).pb_ratio = -10 ∧
      "OVERVALUED_BOOK" ∈ _generate_signals stock (calculate_all_metrics stock) ∧
      "UNDERVALUED_BOOK" ∉ _generate_signals stock (calculate_all_metrics stock)) ∧
    (stock.total_liabilities ≤ 0 →
      (calculate_all_metrics stock).current_ratio = .inf ∧
      quality_cr_band (calculate_all_metrics stock).current_ratio = 10 ∧
      "STRONG_LIQUIDITY" ∈ _generate_signals stock (calculate_all_metrics stock) ∧
      "WEAK_LIQUIDITY" ∉ _generate_signals stock (calculate_all_metrics stock)) ∧
    (stock.debt ≤ 0 → (calculate_all_metrics stock).interest_coverage = .inf) := by
  refine ⟨fun h => ?_, fun h => ?_, fun h => ?_, fun h => interest_coverage_eq_inf h⟩
  · have hpe := pe_ratio_eq_inf h
    exact ⟨hpe, by rw [hpe]; rfl, overvalued_pe_mem hpe, undervalued_pe_not_mem hpe⟩
  · have hpb := pb_ratio_eq_inf h
    exact ⟨hpb, by rw [hpb]; rfl, overvalued_book_mem hpb, undervalued_book_not_mem hpb⟩
  · have hcr := current_ratio_eq_inf h
    exact ⟨hcr, by rw [hcr]; rfl, strong_liquidity_mem hcr, weak_liquidity_not_mem hcr⟩

/-- Witness for the amended C5 at `stockE`, which satisfies all four guard
hypotheses at once. -/
theorem infinity_band_routing_witness :
    stockE.eps ≤ 0 ∧ stockE.book_value_per_share ≤ 0 ∧
    stockE.total_liabilities ≤ 0 ∧ stockE.debt ≤ 0 ∧
    ((calculate_all_metrics stockE).pe_ratio = .inf ∧
      valuation_pe_band (calculate_all_metrics stockE).pe_ratio = -20 ∧
      "OVERVALUED_PE" ∈ _generate_signals stockE (calculate_all_metrics stockE) ∧
      "UNDERVALUED_PE" ∉ _generate_signals stockE (calculate_all_metrics stockE)) ∧
    ((calculate_all_metrics stockE).pb_ratio = .inf ∧
      valuation_pb_band (calculate_all_metrics stockE).pb_ratio = -10 ∧
      "OVERVALUED_BOOK" ∈ _generate_signals stockE (calculate_all_metrics stockE) ∧
      "UNDERVALUED_BOOK" ∉ _generate_signals stockE (calculate_all_metrics stockE)) ∧
    ((calculate_all_metrics stockE).current_ratio = .inf ∧
      quality_cr_band (calculate_all_metrics stockE).current_ratio = 10 ∧
      "STRONG_LIQUIDITY" ∈ _generate_signals stockE (calculate_all_metrics stockE) ∧
      "WEAK_LIQUIDITY" ∉ _generate_signals stockE (calculate_all_metrics stockE)) ∧
    (calculate_all_metrics stockE).interest_coverage = .inf :=
  ⟨by decide, by decide, by decide, by decide,
   (infinity_band_routing stockE).1 (by decide),
   (infinity_band_routing stockE).2.1 (by decide),
   (infinity_band_routing stockE).2.2.1 (by decide),
   (infinity_band_routing stockE).2.2.2 (by decide)⟩

/-! ### Bounds of the six built-in strategy scorers -/

lemma screen_value_bounds (stock : StockData) (a : Analysis) :
    0 ≤ (_screen_value stock a).1 ∧ (_screen_value stock a).1 ≤ 100 := by
  simp only [_screen_value, value_pe_band, value_pb_band, value_ps_band]
  refine ⟨le_min (by norm_num) ?_, min_le_left _ _⟩
  repeat' apply add_nonneg
  all_goals split_ifs <;> norm_num

lemma screen_growth_bounds (stock : StockData) (a : Analysis) :
    0 ≤ (_screen_growth stock a).1 ∧ (_screen_growth stock a).1 ≤ 100 := by
  simp only [_screen_growth, growth_revenue_band, growth_earnings_band, growth_peg_band]
  refine ⟨le_min (by norm_num) ?_, min_le_left _ _⟩
  repeat' apply add_nonneg
  all_goals split_ifs <;> norm_num

lemma screen_dividend_bounds (stock : StockData) (a : Analysis) :
    0 ≤ (_screen_dividend stock a).1 ∧ (_screen_dividend stock a).1 ≤ 100 := by
  simp only [_screen_dividend, dividend_yield_band]
  refine ⟨le_min (by norm_num) ?_, min_le_left _ _⟩
  repeat' apply add_nonneg
  all_goals split_ifs <;> norm_num

lemma screen_momentum_bounds (stock : StockData) (a : Analysis) :
    0 ≤ (_screen_momentum stock a).1 ∧ (_screen_momentum stock a).1 ≤ 100 := by
  simp only [_screen_momentum, momentum_earnings_band]
  refine ⟨le_min (by norm_num) ?_, min_le_left _ _⟩
  repeat' apply add_nonneg
  all_goals split_ifs <;> norm_num

lemma screen_quality_bounds (stock : StockData) (a : Analysis) :
    0 ≤ (_screen_quality stock a).1 ∧ (_screen_quality stock a).1 ≤ 100 := by
  simp only [_screen_quality, quality_qs_band, quality_roe_band, quality_d2e_band]
  refine ⟨le_min (by norm_num) ?_, min_le_left _ _⟩
  repeat' apply add_nonneg
  all_goals split_ifs <;> norm_num

lemma screen_contrarian_bounds (stock : StockData) (a : Analysis) :
    0 ≤ (_screen_contrarian stock a).1 ∧ (_screen_contrarian stock a).1 ≤ 100 := by
  simp only [_screen_contrarian, contrarian_pe_band]
  refine ⟨le_min (by norm_num) ?_, min_le_left _ _⟩
  repeat' apply add_nonneg
  all_goals split_ifs <;> norm_num

/-- A successful strategy lookup yields one of the six built-in scorers. -/
lemma table_cases {strategy : String} {f : StockData → Analysis → ℚ × List String}
    (h : strategiesTable.lookup strategy = some f) :
    f = _screen_value ∨ f = _screen_growth ∨ f = _screen_dividend ∨
    f = _screen_momentum ∨ f = _screen_quality ∨ f = _screen_contrarian := by
  simp only [strategiesTable, List.lookup] at h
  split at h
  · exact Or.inl (Option.some.inj h).symm
  · split at h
    · exact Or.inr (Or.inl (Option.some.inj h).symm)
    · split at h
      · exact Or.inr (Or.inr (Or.inl (Option.some.inj h).symm))
      · split at h
        · exact Or.inr (Or.inr (Or.inr (Or.inl (Option.some.inj h).symm)))
        · split at h
          · exact Or.inr (Or.inr (Or.inr (Or.inr (Or.inl (Option.some.inj h).symm))))
          · split at h
            · exact Or.inr (Or.inr (Or.inr (Or.inr (Or.inr (Option.some.inj h).symm))))
            · cases h

/-- Every registered scorer produces scores in `[0, 100]`. -/
lemma table_scorer_bounds {strategy : String}
    {f : StockData → Analysis → ℚ × List String}
    (h : strategiesTable.lookup strategy = some f) (stock : StockData) (a : Analysis) :
    0 ≤ (f stock a).1 ∧ (f stock a).1 ≤ 100 := by
  rcases table_cases h with rfl | rfl | rfl | rfl | rfl | rfl
  · exact screen_value_bounds stock a
  · exact screen_growth_bounds stock a
  · exact screen_dividend_bounds stock a
  · exact screen_momentum_bounds stock a
  · exact screen_quality_bounds stock a
  · exact screen_contrarian_bounds stock a

/-- The screening loop is the threshold filter over the per-stock results. -/
lemma screenLoop_eq_filter (strategy : String)
    (f : StockData → Analysis → ℚ × List String) (θ : ℚ) (stocks : List StockData) :
    screenLoop strategy f θ stocks =
      (stocks.map (resultOf strategy f)).filter (fun r => decide (θ ≤ r.score)) := by
  induction stocks with
  | nil => rfl
  | cons s rest ih =>
    by_cases h : θ ≤ (resultOf strategy f s).score <;>
      simp [screenLoop, List.filter_cons, h, ih]

/-- The value strings of the six registered built-in strategies. -/
def builtinStrategyKinds : List String := strategiesTable.map Prod.fst

/-- C3: for every list of records, every registered strategy kind and every
threshold, `ScreeningEngine.screen` returns exactly the per-stock results
whose score is at least the threshold (as a permutation of the threshold
filter), ordered descending by score; with `threshold = 0` every input
record is returned (all scores are ≥ 0), and with `threshold = 100` only
records scoring exactly 100 are returned. -/
theorem screen_spec (stocks : List StockData) (strategy : String) (θ : ℚ)
    (f : StockData → Analysis → ℚ × List String)
    (h : strategiesTable.lookup strategy = some f) :
    ∃ res, screen stocks strategy θ = .ok res ∧
      List.Sorted byScoreDesc res ∧
      res.Perm ((stocks.map (resultOf strategy f)).filter
        (fun r => decide (θ ≤ r.score))) ∧
      (∀ r ∈ res, θ ≤ r.score) ∧
      (θ = 0 → res.Perm (stocks.map (resultOf strategy f))) ∧
      (θ = 100 → ∀ r ∈ res, r.score = 100) := by
  refine ⟨List.insertionSort byScoreDesc (screenLoop strategy f θ stocks),
    by simp only [screen, h], List.sorted_insertionSort byScoreDesc _, ?_, ?_, ?_, ?_⟩
  · rw [screenLoop_eq_filter]
    exact List.perm_insertionSort byScoreDesc _
  · intro r hr
    rw [List.mem_insertionSort, screenLoop_eq_filter, List.mem_filter] at hr
    exact of_decide_eq_true hr.2
  · rintro rfl
    rw [screenLoop_eq_filter]
    have hall : ∀ r ∈ stocks.map (resultOf strategy f),
        (fun r : ScreeningResult => decide ((0:ℚ) ≤ r.score)) r = true := by
      intro r hr
      rcases List.mem_map.1 hr with ⟨s, -, rfl⟩
      exact decide_eq_true (table_scorer_bounds h s (analyze s)).1
    rw [List.filter_eq_self.2 hall]
    exact List.perm_insertionSort byScoreDesc _
  · rintro rfl r hr
    rw [List.mem_insertionSort, screenLoop_eq_filter, List.mem_filter] at hr
    rcases List.mem_map.1 hr.1 with ⟨s, -, rfl⟩
    exact le_antisymm (table_scorer_bounds h s (analyze s)).2
      (of_decide_eq_true hr.2)

/-- Witness for C3: the value strategy at threshold 0 on the one-element
universe `[stockA]`. -/
theorem screen_spec_witness :
    strategiesTable.lookup "value_investing" = some _screen_value ∧
    (∃ res, screen [stockA] "value_investing" 0 = .ok res ∧
      List.Sorted byScoreDesc res ∧
      res.Perm (([stockA].map (resultOf "value_investing" _screen_value)).filter
        (fun r => decide ((0:ℚ) ≤ r.score))) ∧
      (∀ r ∈ res, (0:ℚ) ≤ r.score) ∧
      ((0:ℚ) = 0 → res.Perm ([stockA].map (resultOf "value_investing" _screen_value))) ∧
      ((0:ℚ) = 100 → ∀ r ∈ res, r.score = 100)) :=
  ⟨rfl, screen_spec [stockA] "value_investing" 0 _screen_value rfl⟩

/-- C8: for every list of records and every strategy kind outside the six
registered built-ins, `ScreeningEngine.screen` raises the invalid-strategy
`ValueError` (no silent default); for the six registered kinds it never
raises that error. -/
theorem screen_invalid_strategy (stocks : List StockData) (strategy : String) (θ : ℚ) :
    (strategy ∉ builtinStrategyKinds →
      screen stocks strategy θ =
        .error (.valueError ("Unknown strategy: " ++ strategy))) ∧
    (strategy ∈ builtinStrategyKinds →
      ∃ res, screen stocks strategy θ = .ok res) := by
  constructor
  · intro h
    simp only [builtinStrategyKinds, strategiesTable, List.map, List.mem_cons,
      List.not_mem_nil, or_false, not_or] at h
    obtain ⟨h1, h2, h3, h4, h5, h6⟩ := h
    have e1 : (strategy == "value_investing") = false := beq_eq_false_iff_ne.2 h1
    have e2 : (strategy == "growth_investing") = false := beq_eq_false_iff_ne.2 h2
    have e3 : (strategy == "dividend_investing") = false := beq_eq_false_iff_ne.2 h3
    have e4 : (strategy == "momentum_investing") = false := beq_eq_false_iff_ne.2 h4
    have e5 : (strategy == "quality_investing") = false := beq_eq_false_iff_ne.2 h5
    have e6 : (strategy == "contrarian") = false := beq_eq_false_iff_ne.2 h6
    simp [screen, strategiesTable, List.lookup, e1, e2, e3, e4, e5, e6]
  · intro h
    simp only [builtinStrategyKinds, strategiesTable, List.map, List.mem_cons,
      List.not_mem_nil, or_false] at h
    rcases h with rfl | rfl | rfl | rfl | rfl | rfl
    · exact ⟨_, rfl⟩
    · exact ⟨_, rfl⟩
    · exact ⟨_, rfl⟩
    · exact ⟨_, rfl⟩
    · exact ⟨_, rfl⟩
    · exact ⟨_, rfl⟩

/-- Witness for C8: the unregistered kind "garp" fails with the
invalid-strategy error while the registered kind "contrarian" succeeds. -/
theorem screen_invalid_strategy_witness :
    "garp" ∉ builtinStrategyKinds ∧
    screen [] "garp" 50 = .error (.valueError ("Unknown strategy: " ++ "garp")) ∧
    "contrarian" ∈ builtinStrategyKinds ∧
    (∃ res, screen [] "contrarian" 50 = .ok res) :=
  ⟨by decide, (screen_invalid_strategy [] "garp" 50).1 (by decide), by decide,
   (screen_invalid_strategy [] "contrarian" 50).2 (by decide)⟩

/-! ### Custom-strategy screening lemmas -/

/-- A rule "matches" when it evaluates to true without raising; a raising
rule is logged and counted as not matched. -/
def ruleMatches (rule : Rule) (stock : StockData) (analysis : Analysis) : Bool :=
  match rule stock analysis with
  | .ok true => true
  | _ => false

/-- The per-stock result of `screen_with_custom_strategy` before the
threshold comparison. -/
def customResultOf (strategy : CustomStrategy) (stock : StockData) : ScreeningResult :=
  let analysis := analyze stock
  let matched := applyRules stock analysis strategy.rules 0
  { symbol := stock.symbol
    score := ((matched.1 : ℚ) / (strategy.rules.length : ℚ)) * 100
    strategy := "value_investing"
    metrics := analysis.metrics
    signals := matched.2 }

lemma applyRules_fst (stock : StockData) (analysis : Analysis) (rules : List Rule) :
    ∀ i, (applyRules stock analysis rules i).1 =
      rules.countP (fun r => ruleMatches r stock analysis) := by
  induction rules with
  | nil => intro i; simp [applyRules, List.countP_nil]
  | cons r rest ih =>
    intro i
    rw [List.countP_cons]
    unfold applyRules
    cases h : r stock analysis with
    | error e =>
      have hm : ruleMatches r stock analysis = false := by simp [ruleMatches, h]
      simp [h, hm, ih]
    | ok b =>
      cases b
      · have hm : ruleMatches r stock analysis = false := by simp [ruleMatches, h]
        simp [h, hm, ih]
      · have hm : ruleMatches r stock analysis = true := by simp [ruleMatches, h]
        simp [h, hm, ih]

/-- With a non-empty rule list the custom screening loop never raises and is
the threshold filter over the per-stock results. -/
lemma customLoop_eq_filter (strategy : CustomStrategy) (θ : ℚ)
    (hne : strategy.rules ≠ []) (stocks : List StockData) :
    customLoop strategy θ stocks =
      .ok ((stocks.map (customResultOf strategy)).filter
        (fun r => decide (θ ≤ r.score))) := by
  have hlen : strategy.rules.length ≠ 0 := by
    simpa [List.length_eq_zero] using hne
  induction stocks with
  | nil => rfl
  | cons s rest ih =>
    simp only [customLoop, hlen, if_false, ih, List.map_cons, List.filter_cons,
      Bind.bind, Except.bind, customResultOf]
    split
    next h => simp [h]
    next h => simp [h]

/-- A rule that evaluates to true. -/
def ruleTrue : Rule := fun _ _ => .ok true

/-- A rule that raises during evaluation. -/
def ruleRaise : Rule := fun _ _ => .error "boom"

/-- Scenario C strategy: 3 rules of which exactly 2 evaluate true and one
raises. -/
def threeRuleStrategy : CustomStrategy where
  name := "three_rules"
  rules := [ruleTrue, ruleRaise, ruleTrue]

/-- A registry holding the scenario strategy under its auto-generated id. -/
def registryC2 : List (String × CustomStrategy) :=
  [("custom_three_rules_0", threeRuleStrategy)]

/-- An empty-rules custom strategy. -/
def emptyRulesStrategy : CustomStrategy where
  name := "empty"
  rules := []

/-- A registry holding the empty-rules strategy. -/
def registryC9 : List (String × CustomStrategy) :=
  [("custom_empty_0", emptyRulesStrategy)]

/-- In the 3-rule scenario exactly the two non-raising rules match. -/
lemma threeRule_countP :
    threeRuleStrategy.rules.countP
      (fun r => ruleMatches r stockA (analyze stockA)) = 2 := by
  simp [threeRuleStrategy, List.countP, List.countP.go, ruleMatches, ruleTrue, ruleRaise]

/-- The 3-rule scenario scores (2/3) × 100 = 200/3. -/
lemma threeRule_score :
    (customResultOf threeRuleStrategy stockA).score = 200 / 3 := by
  have h := applyRules_fst stockA (analyze stockA) threeRuleStrategy.rules 0
  simp only [customResultOf, h, threeRule_countP]
  norm_num [threeRuleStrategy]

/-- C2: for every registered custom strategy with a non-empty rule list,
every stock's score is (count of rules returning true / total rule count) ×
100, where a raising rule counts as not matched (evaluation continues over
the remaining rules) and screening continues over the remaining stocks
without error; in particular the 3-rule scenario with exactly 2 true rules
and one raising rule scores (2/3) × 100 = 200/3 (66.67), not 100/3 (33.33)
and not an error. -/
theorem custom_strategy_fraction_scoring
    (registry : List (String × CustomStrategy)) (stocks : List StockData)
    (sid : String) (θ : ℚ) (strat : CustomStrategy)
    (hlook : registry.lookup sid = some strat) (hne : strat.rules ≠ []) :
    (∀ stock, (customResultOf strat stock).score =
      ((strat.rules.countP (fun r => ruleMatches r stock (analyze stock)) : ℚ) /
        (strat.rules.length : ℚ)) * 100) ∧
    (∃ res, screen_with_custom_strategy registry stocks sid θ = .ok res ∧
      List.Sorted byScoreDesc res ∧
      res.Perm ((stocks.map (customResultOf strat)).filter
        (fun r => decide (θ ≤ r.score)))) ∧
    (customResultOf threeRuleStrategy stockA).score = 200 / 3 ∧
    threeRuleStrategy.rules.countP
      (fun r => ruleMatches r stockA (analyze stockA)) = 2 := by
  refine ⟨?_, ?_, threeRule_score, threeRule_countP⟩
  · intro stock
    simp [customResultOf, applyRules_fst]
  · refine ⟨List.insertionSort byScoreDesc
      ((stocks.map (customResultOf strat)).filter (fun r => decide (θ ≤ r.score))),
      ?_, List.sorted_insertionSort byScoreDesc _, List.perm_insertionSort byScoreDesc _⟩
    simp [screen_with_custom_strategy, hlook, customLoop_eq_filter strat θ hne,
      Bind.bind, Except.bind]

/-- Witness for C2 at the scenario registry, a one-stock universe and
threshold 50. -/
theorem custom_strategy_fraction_scoring_witness :
    registryC2.lookup "custom_three_rules_0" = some threeRuleStrategy ∧
    threeRuleStrategy.rules ≠ [] ∧
    ((∀ stock, (customResultOf threeRuleStrategy stock).score =
      ((threeRuleStrategy.rules.countP
          (fun r => ruleMatches r stock (analyze stock)) : ℚ) /
        (threeRuleStrategy.rules.length : ℚ)) * 100) ∧
    (∃ res, screen_with_custom_strategy registryC2 [stockA]
        "custom_three_rules_0" 50 = .ok res ∧
      List.Sorted byScoreDesc res ∧
      res.Perm (([stockA].map (customResultOf threeRuleStrategy)).filter
        (fun r => decide ((50:ℚ) ≤ r.score)))) ∧
    (customResultOf threeRuleStrategy stockA).score = 200 / 3 ∧
    threeRuleStrategy.rules.countP
      (fun r => ruleMatches r stockA (analyze stockA)) = 2) :=
  ⟨rfl, List.cons_ne_nil _ _,
   custom_strategy_fraction_scoring registryC2 [stockA] "custom_three_rules_0" 50
     threeRuleStrategy rfl (List.cons_ne_nil _ _)⟩

/-- C9: a custom strategy registered with an empty rules list makes
`screen_with_custom_strategy` raise `ZeroDivisionError` on every non-empty
stocks list: the score expression `(match_count / len(rules)) * 100` has no
guard for zero rules. -/
theorem custom_empty_rules_zero_division
    (registry : List (String × CustomStrategy)) (stocks : List StockData)
    (sid : String) (θ : ℚ) (strat : CustomStrategy)
    (hlook : registry.lookup sid = some strat)
    (hrules : strat.rules = []) (hstocks : stocks ≠ []) :
    screen_with_custom_strategy registry stocks sid θ =
      .error .zeroDivisionError := by
  obtain ⟨s, rest, rfl⟩ := List.exists_cons_of_ne_nil hstocks
  have hloop : customLoop strat θ (s :: rest) = .error .zeroDivisionError := by
    simp [customLoop, hrules]
  simp [screen_with_custom_strategy, hlook, hloop, Bind.bind, Except.bind]

/-- Witness for C9: the empty-rules registry on a one-stock universe. -/
theorem custom_empty_rules_zero_division_witness :
    registryC9.lookup "custom_empty_0" = some emptyRulesStrategy ∧
    emptyRulesStrategy.rules = [] ∧
    ([stockA] : List StockData) ≠ [] ∧
    screen_with_custom_strategy registryC9 [stockA] "custom_empty_0" 50 =
      .error .zeroDivisionError :=
  ⟨rfl, rfl, List.cons_ne_nil _ _,
   custom_empty_rules_zero_division registryC9 [stockA] "custom_empty_0" 50
     emptyRulesStrategy rfl rfl (List.cons_ne_nil _ _)⟩

/-- Every result produced by a successful custom screening run carries the
hardcoded `value_investing` strategy tag. -/
lemma customLoop_strategy_field (strat : CustomStrategy) (θ : ℚ)
    (stocks : List StockData) (results : List ScreeningResult)
    (h : customLoop strat θ stocks = .ok results) :
    ∀ r ∈ results, r.strategy = "value_investing" := by
  intro r hr
  by_cases hne : strat.rules = []
  · cases stocks with
    | nil =>
      simp only [customLoop, Except.ok.injEq] at h
      subst h
      cases hr
    | cons s rest =>
      have herr : customLoop strat θ (s :: rest) = .error .zeroDivisionError := by
        simp [customLoop, hne]
      rw [herr] at h
      cases h
  · rw [customLoop_eq_filter strat θ hne] at h
    injection h with h
    subst h
    rcases List.mem_map.1 (List.mem_of_mem_filter hr) with ⟨s, -, rfl⟩
    rfl

/-- C10: every `ScreeningResult` produced by `screen_with_custom_strategy`
has its strategy field equal to `ScreeningStrategy.VALUE_INVESTING`
(value string "value_investing"), regardless of which custom strategy id
was screened. -/
theorem custom_results_strategy_always_value
    (registry : List (String × CustomStrategy)) (stocks : List StockData)
    (sid : String) (θ : ℚ) (res : List ScreeningResult)
    (h : screen_with_custom_strategy registry stocks sid θ = .ok res) :
    ∀ r ∈ res, r.strategy = "value_investing" := by
  unfold screen_with_custom_strategy at h
  cases hlook : registry.lookup sid with
  | none =>
    rw [hlook] at h
    cases h
  | some strat =>
    rw [hlook] at h
    cases hloop : customLoop strat θ stocks with
    | error e =>
      simp only [hloop, Bind.bind, Except.bind] at h
      exact Except.noConfusion h
    | ok results =>
      simp only [hloop, Bind.bind, Except.bind, Except.ok.injEq] at h
      subst h
      intro r hr
      rw [List.mem_insertionSort] at hr
      exact customLoop_strategy_field strat θ stocks results hloop r hr

/-- Witness for C10: a concrete successful run of the scenario registry. -/
theorem custom_results_strategy_always_value_witness :
    screen_with_custom_strategy registryC2 [stockA] "custom_three_rules_0" 50 =
      .ok [customResultOf threeRuleStrategy stockA] ∧
    ∀ r ∈ [customResultOf threeRuleStrategy stockA],
      r.strategy = "value_investing" := by
  have h : screen_with_custom_strategy registryC2 [stockA]
      "custom_three_rules_0" 50 = .ok [customResultOf threeRuleStrategy stockA] := by
    have hfil : (50:ℚ) ≤ (customResultOf threeRuleStrategy stockA).score := by
      rw [threeRule_score]
      norm_num
    simp [screen_with_custom_strategy, registryC2,
      customLoop_eq_filter threeRuleStrategy 50 (List.cons_ne_nil _ _),
      Bind.bind, Except.bind, List.filter_cons, decide_eq_true hfil,
      List.insertionSort, List.orderedInsert]
  exact ⟨h, custom_results_strategy_always_value registryC2 [stockA]
    "custom_three_rules_0" 50 [customResultOf threeRuleStrategy stockA] h⟩

/-! ### Criteria-filter lemmas -/

/-- Embeds `_apply_criteria` keeps exactly the records whose analysis passes every
criterion. -/
lemma apply_criteria_mem (criteria : List (String × Bounds)) :
    ∀ (stocks filtered : List StockData),
      _apply_criteria stocks criteria = .ok filtered →
      ∀ s, s ∈ filtered ↔ s ∈ stocks ∧
        passesCriteria s (analyze s).metrics criteria = .ok true := by
  intro stocks
  induction stocks with
  | nil =>
    intro filtered h s
    simp only [_apply_criteria, Except.ok.injEq] at h
    subst h
    simp
  | cons t rest ih =>
    intro filtered h s
    simp only [_apply_criteria] at h
    cases hp : passesCriteria t (analyze t).metrics criteria with
    | error e =>
      rw [hp] at h
      exact Except.noConfusion h
    | ok b =>
      rw [hp] at h
      cases hrec : _apply_criteria rest criteria with
      | error e =>
        rw [hrec] at h
        exact Except.noConfusion h
      | ok tail =>
        rw [hrec] at h
        simp only [Bind.bind, Except.bind, Except.ok.injEq] at h
        subst h
        have ihs := ih tail hrec s
        cases b with
        | true =>
          simp only [if_true, List.mem_cons]
          constructor
          · rintro (rfl | hs)
            · exact ⟨Or.inl rfl, hp⟩
            · exact ⟨Or.inr (ihs.1 hs).1, (ihs.1 hs).2⟩
          · rintro ⟨rfl | hs, hpass⟩
            · exact Or.inl rfl
            · exact Or.inr (ihs.2 ⟨hs, hpass⟩)
        | false =>
          simp only [if_false, List.mem_cons]
          constructor
          · intro hs
            exact ⟨Or.inr (ihs.1 hs).1, (ihs.1 hs).2⟩
          · rintro ⟨rfl | hs, hpass⟩
            · rw [hp] at hpass
              exact absurd (Except.ok.inj hpass) (by simp)
            · exact ihs.2 ⟨hs, hpass⟩

/-- The criterion loop succeeds with `true` exactly when every single
criterion check succeeds with `true` (the `break` on the first failure does
not change this). -/
lemma passesCriteria_iff (s : StockData) (metrics : Metrics) :
    ∀ criteria : List (String × Bounds),
      passesCriteria s metrics criteria = .ok true ↔
      ∀ mb ∈ criteria, criterionCheck s metrics mb.1 mb.2 = .ok true := by
  intro criteria
  induction criteria with
  | nil => simp [passesCriteria]
  | cons mb rest ih =>
    obtain ⟨m, b⟩ := mb
    simp only [passesCriteria]
    cases hc : criterionCheck s metrics m b with
    | error e =>
      simp only [Bind.bind, Except.bind]
      constructor
      · intro h
        exact absurd h (by simp)
      · intro h
        have := h (m, b) (List.mem_cons_self _ _)
        rw [hc] at this
        exact Except.noConfusion this
    | ok b' =>
      cases b' with
      | true =>
        simp only [Bind.bind, Except.bind, if_true]
        rw [ih]
        constructor
        · intro h mb' hmb'
          rcases List.mem_cons.1 hmb' with rfl | hmb'
          · exact hc
          · exact h mb' hmb'
        · intro h mb' hmb'
          exact h mb' (List.mem_cons_of_mem _ hmb')
      | false =>
        simp only [Bind.bind, Except.bind, if_false]
        constructor
        · intro h
          exact absurd (Except.ok.inj h) (by simp)
        · intro h
          have := h (m, b) (List.mem_cons_self _ _)
          rw [hc] at this
          exact absurd (Except.ok.inj this) (by simp)

lemma stockA_pe : (calculate_all_metrics stockA).pe_ratio = .fin 15 := by
  norm_num [calculate_all_metrics, _calculate_pe_ratio, stockA]

lemma stockB_pe : (calculate_all_metrics stockB).pe_ratio = .fin 25 := by
  norm_num [calculate_all_metrics, _calculate_pe_ratio, stockB, stockA]

/-- Scenario D: the pe-max-20 criterion keeps the pe-15 stock and drops the
pe-25 stock. -/
lemma scenarioD :
    _apply_criteria [stockA, stockB] [("pe_ratio", ⟨none, some 20⟩)] =
      .ok [stockA] := by
  have hresA : resolveValue stockA (analyze stockA).metrics "pe_ratio" =
      some (.num (.fin 15)) := by
    have h0 : resolveValue stockA (analyze stockA).metrics "pe_ratio" =
        some (.num (calculate_all_metrics stockA).pe_ratio) := rfl
    rw [h0, stockA_pe]
  have hresB : resolveValue stockB (analyze stockB).metrics "pe_ratio" =
      some (.num (.fin 25)) := by
    have h0 : resolveValue stockB (analyze stockB).metrics "pe_ratio" =
        some (.num (calculate_all_metrics stockB).pe_ratio) := rfl
    rw [h0, stockB_pe]
  have hcA : criterionCheck stockA (analyze stockA).metrics "pe_ratio"
      ⟨none, some 20⟩ = .ok true := by
    rw [criterionCheck, hresA]
    norm_num [checkBounds, pyGt, MValue.gtb, Bind.bind, Except.bind, pure, Except.pure]
  have hcB : criterionCheck stockB (analyze stockB).metrics "pe_ratio"
      ⟨none, some 20⟩ = .ok false := by
    rw [criterionCheck, hresB]
    norm_num [checkBounds, pyGt, MValue.gtb, Bind.bind, Except.bind, pure, Except.pure]
  have hpA : passesCriteria stockA (analyze stockA).metrics
      [("pe_ratio", ⟨none, some 20⟩)] = .ok true := by
    simp [passesCriteria, hcA, Bind.bind, Except.bind]
  have hpB : passesCriteria stockB (analyze stockB).metrics
      [("pe_ratio", ⟨none, some 20⟩)] = .ok false := by
    simp [passesCriteria, hcB, Bind.bind, Except.bind]
  simp [_apply_criteria, hpA, hpB, Bind.bind, Except.bind]

/-- C4: for every list of records and every criteria mapping, the criteria
filter keeps a record iff every criterion passes (conjunctive); each named
metric is resolved first against the computed metrics dictionary, else
against a same-named raw record attribute, else the criterion is skipped
(treated as satisfied); in particular `{'pe_ratio': {'max': 20}}` over the
pe-15 and pe-25 stocks keeps only the pe-15 stock. -/
theorem apply_criteria_spec (stocks : List StockData)
    (criteria : List (String × Bounds)) (filtered : List StockData)
    (h : _apply_criteria stocks criteria = .ok filtered) :
    (∀ s, s ∈ filtered ↔ s ∈ stocks ∧
      passesCriteria s (analyze s).metrics criteria = .ok true) ∧
    (∀ s, passesCriteria s (analyze s).metrics criteria = .ok true ↔
      ∀ mb ∈ criteria, criterionCheck s (analyze s).metrics mb.1 mb.2 = .ok true) ∧
    (∀ (s : StockData) (m : String) (b : Bounds) (v : MValue),
      (analyze s).metrics.get? ((metric_map.lookup m).getD m) = some v →
      criterionCheck s (analyze s).metrics m b = checkBounds (.num v) b) ∧
    (∀ (s : StockData) (m : String) (b : Bounds) (v : PyValue),
      (analyze s).metrics.get? ((metric_map.lookup m).getD m) = none →
      s.getattr? ((metric_map.lookup m).getD m) = some v →
      criterionCheck s (analyze s).metrics m b = checkBounds v b) ∧
    (∀ (s : StockData) (m : String) (b : Bounds),
      resolveValue s (analyze s).metrics m = none →
      criterionCheck s (analyze s).metrics m b = .ok true) ∧
    _apply_criteria [stockA, stockB] [("pe_ratio", ⟨none, some 20⟩)] =
      .ok [stockA] := by
  refine ⟨apply_criteria_mem criteria stocks filtered h,
    fun s => passesCriteria_iff s (analyze s).metrics criteria,
    ?_, ?_, ?_, scenarioD⟩
  · intro s m b v hv
    rw [criterionCheck, resolveValue, hv]
  · intro s m b v hm hv
    rw [criterionCheck, resolveValue, hm, hv]
  · intro s m b hnone
    rw [criterionCheck, hnone]

/-- Witness for C4 at the scenario D inputs. -/
theorem apply_criteria_spec_witness :
    _apply_criteria [stockA, stockB] [("pe_ratio", ⟨none, some 20⟩)] =
      .ok [stockA] ∧
    ((∀ s, s ∈ [stockA] ↔ s ∈ [stockA, stockB] ∧
      passesCriteria s (analyze s).metrics
        [("pe_ratio", ⟨none, some 20⟩)] = .ok true) ∧
    (∀ s, passesCriteria s (analyze s).metrics
        [("pe_ratio", ⟨none, some 20⟩)] = .ok true ↔
      ∀ mb ∈ ([("pe_ratio", (⟨none, some 20⟩ : Bounds))] : List (String × Bounds)),
        criterionCheck s (analyze s).metrics mb.1 mb.2 = .ok true) ∧
    (∀ (s : StockData) (m : String) (b : Bounds) (v : MValue),
      (analyze s).metrics.get? ((metric_map.lookup m).getD m) = some v →
      criterionCheck s (analyze s).metrics m b = checkBounds (.num v) b) ∧
    (∀ (s : StockData) (m : String) (b : Bounds) (v : PyValue),
      (analyze s).metrics.get? ((metric_map.lookup m).getD m) = none →
      s.getattr? ((metric_map.lookup m).getD m) = some v →
      criterionCheck s (analyze s).metrics m b = checkBounds v b) ∧
    (∀ (s : StockData) (m : String) (b : Bounds),
      resolveValue s (analyze s).metrics m = none →
      criterionCheck s (analyze s).metrics m b = .ok true) ∧
    _apply_criteria [stockA, stockB] [("pe_ratio", ⟨none, some 20⟩)] =
      .ok [stockA]) :=
  ⟨scenarioD, apply_criteria_spec [stockA, stockB]
    [("pe_ratio", ⟨none, some 20⟩)] [stockA] scenarioD⟩

end StockScreener
